import Mathlib

/-!
Verification of the DAG payload resolution and caching subsystem
(`consensus/src/dag/payload/manager.rs`): a shallow embedding of
`DagPayloadManager` and the external collaborators it consumes,
together with theorems settling the specified behavioural claims.

Source functions embedded here: `insert_payload`, `retrieve_payload`
(including the fetch-completion future it spawns on a store miss),
`prefetch_payload`, `get_payload_if_exists`, `add_payload`.

Collaborators that are only consumed by the manager (payload store,
payload requester, the bounded deque collection, the one-shot channel)
are modelled from the specification's contracts for them; each such
definition carries a doc comment saying so.
-/

set_option autoImplicit false

namespace DagMgr

/-- Content hash identifying a payload (`PayloadDigest`). -/
abbrev PayloadDigest := Nat

/-- Peer / validator identity (`Author`). -/
abbrev Author := Nat

/-- A signed transaction, opaque to the manager. -/
abbrev SignedTransaction := Nat

/-- Identifier of one registered waiter; stands for one
`oneshot::Sender`/`Receiver` pair created by `oneshot::channel()`. -/
abbrev WaiterId := Nat

/-- `Payload`: tagged variants of transaction-carrying representations.
Only `DirectMempool` is supported by the resolution logic; `InQuorumStore`
stands for any other (structurally representable, unsupported) variant. -/
inductive Payload where
  | DirectMempool (txns : List SignedTransaction)
  | InQuorumStore (proof : Nat)
deriving DecidableEq, Repr

/-- Whether a payload is the supported `DirectMempool` representation. -/
def Payload.isDirectMempool : Payload → Bool
  | .DirectMempool _ => true
  | .InQuorumStore _ => false

/-- `PayloadInfo`: metadata identifying a payload (node id and digest),
sufficient to request it over the network. -/
structure PayloadInfo where
  id : Nat
  digest : PayloadDigest
deriving DecidableEq, Repr

/-- `DecoupledPayload`: a payload together with its identifying info. -/
structure DecoupledPayload where
  info : PayloadInfo
  payload : Payload
deriving DecidableEq, Repr

/-- `DagPayload`: a certified node's payload field — either decoupled
(referenced by `PayloadInfo`) or carried inline (any other node kind). -/
inductive DagPayload where
  | Decoupled (info : PayloadInfo)
  | Inline (p : Payload)
deriving DecidableEq, Repr

/-- `CertifiedNode`: the fields of a certified DAG node the manager reads —
its id, its payload reference, and its parents' authors. -/
structure CertifiedNode where
  id : Nat
  payload : DagPayload
  parentsAuthors : List Author
deriving DecidableEq, Repr

/-- State of one one-shot channel. Modelled from the spec: the
single-resolution signal contract — at most one send, at most one
receive, and a dropped sender surfaces as an error to the receiver. -/
inductive ChanState where
  | pending
  | sent (txns : List SignedTransaction)
  | senderDropped
deriving DecidableEq, Repr

/-- All one-shot channels ever created, plus a log of every `send`
attempt in program order (used to state notification order). -/
structure ChanSys where
  states : WaiterId → Option ChanState
  sendLog : List (WaiterId × List SignedTransaction)

/-- `tx.send(txns)`: resolves the channel if it is still pending
(a send to an already-dropped or used channel only fails softly,
which the source logs and ignores). The attempt is always logged. -/
def sendTo (ch : ChanSys) (w : WaiterId) (txns : List SignedTransaction) : ChanSys :=
  { states := fun x => if x = w then
      (match ch.states w with
       | some ChanState.pending => some (ChanState.sent txns)
       | s => s)
      else ch.states x,
    sendLog := ch.sendLog ++ [(w, txns)] }

/-- Dropping a `oneshot::Sender`: a pending channel becomes
`senderDropped`, which the receiver observes as `RecvError`. -/
def dropSender (ch : ChanSys) (w : WaiterId) : ChanSys :=
  { ch with states := fun x => if x = w then
      (match ch.states w with
       | some ChanState.pending => some ChanState.senderDropped
       | s => s)
      else ch.states x }

/-- Drop a list of senders in order. -/
def dropSenders (ch : ChanSys) (ws : List WaiterId) : ChanSys :=
  ws.foldl dropSender ch

/-- Result observed by a receiver once its channel has settled. -/
inductive RecvResult where
  | ok (txns : List SignedTransaction)
  | recvError
deriving DecidableEq, Repr

/-- `rx.await` once the channel has settled: `some` of the outcome if the
channel was resolved or its sender dropped, `none` while still pending
(the receiver would still be suspended). -/
def ChanSys.recv (ch : ChanSys) (w : WaiterId) : Option RecvResult :=
  match ch.states w with
  | some (ChanState.sent txns) => some (RecvResult.ok txns)
  | some ChanState.senderDropped => some RecvResult.recvError
  | _ => none

/-- Modelled from the spec: `aptos_collections::BoundedVecDeque` is not
under `src/`. The spec describes it as an ordered, capacity-bounded
queue whose registration policy, when the queue is at capacity, is to
evict the oldest element on `push_back`. -/
structure BoundedVecDeque where
  capacity : Nat
  items : List WaiterId
deriving DecidableEq, Repr

/-- `BoundedVecDeque::new(capacity)`. -/
def BoundedVecDeque.new (capacity : Nat) : BoundedVecDeque :=
  { capacity := capacity, items := [] }

/-- `push_back`: appends; if the queue is full, evicts and returns the
oldest (front) element. -/
def BoundedVecDeque.push_back (q : BoundedVecDeque) (x : WaiterId) :
    Option WaiterId × BoundedVecDeque :=
  if q.capacity ≤ q.items.length then
    match q.items with
    | [] => (none, { q with items := [x] })
    | h :: t => (some h, { q with items := t ++ [x] })
  else (none, { q with items := q.items ++ [x] })

/-- `pop_front`. -/
def BoundedVecDeque.pop_front (q : BoundedVecDeque) :
    Option WaiterId × BoundedVecDeque :=
  (q.items.head?, { q with items := q.items.tail })

/-- `DagPayloadStoreError`: `Missing` drives a fetch; any other store
error is opaque to the manager. Modelled from the spec's store contract
(`get -> Result<Payload, Missing | Other(err)>`). -/
inductive DagPayloadStoreError where
  | Missing (id : Nat)
  | Other
deriving DecidableEq, Repr

/-- The waiters map (`DashMap<PayloadDigest, BoundedVecDeque<Sender>>`)
as an association list. -/
abbrev WaitersMap := List (PayloadDigest × BoundedVecDeque)

/-- Map lookup by digest. -/
def wLookup : WaitersMap → PayloadDigest → Option BoundedVecDeque
  | [], _ => none
  | (d, q) :: rest, k => if d = k then some q else wLookup rest k

/-- Map removal of a digest's entry. -/
def wRemove : WaitersMap → PayloadDigest → WaitersMap
  | [], _ => []
  | (d, q) :: rest, k => if d = k then wRemove rest k else (d, q) :: wRemove rest k

/-- Map update: set the queue stored under a digest. -/
def wSet (ws : WaitersMap) (k : PayloadDigest) (q : BoundedVecDeque) : WaitersMap :=
  (k, q) :: wRemove ws k

/-- Every waiter currently queued anywhere in the map. -/
def allQueued (ws : WaitersMap) : List WaiterId :=
  (ws.map (fun p => p.2.items)).flatten

/-- The manager's state: the payload store's contents and injected
failure modes (the store and requester are external collaborators,
modelled from the spec's contracts for them), the waiters map, the
one-shot channels, the next fresh waiter id, and logs of every fetch
request and cancellation handed to the requester. -/
structure ManagerState where
  store : PayloadDigest → Option DecoupledPayload
  storeGetFails : PayloadDigest → Bool
  storeInsertFails : PayloadDigest → Bool
  requestFails : PayloadDigest → Bool
  waiters : WaitersMap
  chans : ChanSys
  nextWaiter : WaiterId
  fetchRequests : List (PayloadInfo × List Author)
  cancelRequests : List PayloadInfo

/-- Modelled from the spec: `DagPayloadStore::get(id, digest)` is not
under `src/`; per the store contract it returns the stored payload,
`Missing` when absent, or an opaque other error. -/
def storeGet (st : ManagerState) (id : Nat) (digest : PayloadDigest) :
    Except DagPayloadStoreError DecoupledPayload :=
  if st.storeGetFails digest = true then Except.error DagPayloadStoreError.Other
  else match st.store digest with
    | some p => Except.ok p
    | none => Except.error (DagPayloadStoreError.Missing id)

/-- Modelled from the spec: `DagPayloadStore::insert` is not under
`src/`; per the store contract a duplicate write for an already-present
digest is an idempotent no-op, and other write failures propagate. -/
def storeInsert (st : ManagerState) (p : DecoupledPayload) :
    Except String ManagerState :=
  if st.storeInsertFails p.info.digest = true then Except.error "store insert failed"
  else if (st.store p.info.digest).isSome = true then Except.ok st
  else Except.ok { st with store := fun d => if d = p.info.digest then some p else st.store d }

/-- Outcome of one manager operation: normal return with the post-state,
an `anyhow` error (`bail!` / `?`) with the post-state at the point of
the early return, or a process abort (`unreachable!` / `expect`). -/
inductive OpResult (α : Type) where
  | ok (st : ManagerState) (val : α)
  | err (st : ManagerState) (msg : String)
  | panicked (msg : String)

/-- Whether the operation returned `Ok`. -/
def OpResult.isOk {α : Type} : OpResult α → Bool
  | .ok _ _ => true
  | _ => false

/-- The panic message, when the operation aborted. -/
def OpResult.panicMsg {α : Type} : OpResult α → Option String
  | .panicked m => some m
  | _ => none

/-- The error message, when the operation returned `Err`. -/
def OpResult.errMsg {α : Type} : OpResult α → Option String
  | .err _ m => some m
  | _ => none

/-- The post-state, with a default for the aborted case (where no state
is observable — the process died). -/
def OpResult.stateD {α : Type} : OpResult α → ManagerState → ManagerState
  | .ok st _, _ => st
  | .err st _, _ => st
  | .panicked _, d => d

/-- The returned value, with a default. -/
def OpResult.valD {α : Type} : OpResult α → α → α
  | .ok _ v, _ => v
  | _, d => d

/-- The body of `insert_payload`'s waiter-notification loop:
`for tx in waiters { let Payload::DirectMempool(txns) = &payload else
unreachable!; tx.send(txns.clone()) }`. Returns `none` when the loop
hits the `unreachable!` (non-`DirectMempool` payload with at least one
waiter), otherwise the channels after all sends, in queue order. -/
def notifyLoop (ch : ChanSys) (items : List WaiterId) (payload : Payload) :
    Option ChanSys :=
  match items with
  | [] => some ch
  | w :: rest =>
    match payload with
    | Payload.DirectMempool txns => notifyLoop (sendTo ch w txns) rest payload
    | _ => none


/-- Fold of `sendTo` over a waiter list with one transaction list:
the normal form of `notifyLoop` on a supported payload. -/
def notifySends (ch : ChanSys) (items : List WaiterId)
    (txns : List SignedTransaction) : ChanSys :=
  items.foldl (fun c w => sendTo c w txns) ch

/-- `DagPayloadManager::insert_payload`: write the payload to the store
(propagating store errors), best-effort cancel the in-flight fetch,
then remove and drain this digest's waiter queue. -/
def insert_payload (st : ManagerState) (node_payload : DecoupledPayload) :
    OpResult Unit :=
  let info := node_payload.info
  let digest := info.digest
  let payload := node_payload.payload
  match storeInsert st node_payload with
  | Except.error e => OpResult.err st e
  | Except.ok st1 =>
    let st2 := { st1 with cancelRequests := st1.cancelRequests ++ [info] }
    match wLookup st2.waiters digest with
    | none => OpResult.ok st2 ()
    | some q =>
      let st3 := { st2 with waiters := wRemove st2.waiters digest }
      match notifyLoop st3.chans q.items payload with
      | none => OpResult.panicked "other payloads are not supported"
      | some ch => OpResult.ok { st3 with chans := ch } ()

/-- `DagPayloadManager::retrieve_payload`: register a fresh waiter under
the digest (creating the queue with `BoundedVecDeque::new(1)` if absent;
an evicted oldest sender is dropped), then query the store. On a hit,
remove the queue (`expect("must exist")`), pop and resolve its front
waiter and return the caller's receiver already resolved. On `Missing`,
issue a fetch scoped to the node's parent authors (propagating issuance
errors) and return the receiver; the spawned completion future is
embedded separately as `fetchCompletion`. On any other store error,
`bail!` — returning with the just-registered waiter still in the map. -/
def retrieve_payload (st : ManagerState) (node : CertifiedNode) :
    OpResult WaiterId :=
  match node.payload with
  | DagPayload.Inline _ => OpResult.panicked "payload manager is only for decouple DAG payload"
  | DagPayload.Decoupled info =>
    let w := st.nextWaiter
    let ch0 : ChanSys :=
      { st.chans with states := fun x => if x = w then some ChanState.pending else st.chans.states x }
    let q0 := (wLookup st.waiters info.digest).getD (BoundedVecDeque.new 1)
    let pushed := q0.push_back w
    let ch1 := match pushed.1 with
      | some evicted => dropSender ch0 evicted
      | none => ch0
    let st1 := { st with
      nextWaiter := w + 1,
      chans := ch1,
      waiters := wSet st.waiters info.digest pushed.2 }
    match storeGet st1 info.id info.digest with
    | Except.ok payload =>
      match payload.payload with
      | Payload.DirectMempool txns =>
        match wLookup st1.waiters info.digest with
        | none => OpResult.panicked "must exist"
        | some q =>
          let st2 := { st1 with waiters := wRemove st1.waiters info.digest }
          match q.pop_front with
          | (some tx, rest) =>
            let ch2 := dropSenders (sendTo st2.chans tx txns) rest.items
            OpResult.ok { st2 with chans := ch2 } w
          | (none, _) => OpResult.ok st2 w
      | _ => OpResult.panicked "other payloads are not supported"
    | Except.error (DagPayloadStoreError.Missing _) =>
      if st1.requestFails info.digest = true then OpResult.err st1 "request issue error"
      else
        let responders := node.parentsAuthors
        OpResult.ok { st1 with fetchRequests := st1.fetchRequests ++ [(info, responders)] } w
    | Except.error DagPayloadStoreError.Other =>
      OpResult.err st1 "error fetching"

/-- The fetch-completion future spawned by `retrieve_payload` on a store
miss, after its `request_rx` resolved with the fetched payload:
`let Payload::DirectMempool(txns) = node_payload.payload() else
unreachable!; waiters.remove(info.digest()).expect("must exist").1
.pop_front()` — send to the popped front waiter, dropping the rest of
the removed queue. -/
def fetchCompletion (st : ManagerState) (digest : PayloadDigest)
    (node_payload : DecoupledPayload) : OpResult Unit :=
  match node_payload.payload with
  | Payload.DirectMempool txns =>
    match wLookup st.waiters digest with
    | none => OpResult.panicked "must exist"
    | some q =>
      let st1 := { st with waiters := wRemove st.waiters digest }
      match q.pop_front with
      | (some tx, rest) =>
        let ch2 := dropSenders (sendTo st1.chans tx txns) rest.items
        OpResult.ok { st1 with chans := ch2 } ()
      | (none, _) => OpResult.ok st1 ()
  | _ => OpResult.panicked "other payloads are not supported"

/-- `DagPayloadManager::prefetch_payload`: best-effort warm-up — on a
hit do nothing, on `Missing` issue a fetch and discard (`ok()`) any
issuance error, on any other store error log and return. -/
def prefetch_payload (st : ManagerState) (node : CertifiedNode) : OpResult Unit :=
  match node.payload with
  | DagPayload.Inline _ => OpResult.panicked "payload manager is only for decouple DAG payload"
  | DagPayload.Decoupled info =>
    match storeGet st info.id info.digest with
    | Except.ok _ => OpResult.ok st ()
    | Except.error (DagPayloadStoreError.Missing _) =>
      if st.requestFails info.digest = true then OpResult.ok st ()
      else
        let responders := node.parentsAuthors
        OpResult.ok { st with fetchRequests := st.fetchRequests ++ [(info, responders)] } ()
    | Except.error DagPayloadStoreError.Other => OpResult.ok st ()

/-- `TDagPayloadResolver::get_payload_if_exists`:
`self.payload_store.get(info.id(), info.digest()).ok()`. -/
def get_payload_if_exists (st : ManagerState) (node : CertifiedNode) :
    OpResult (Option DecoupledPayload) :=
  match node.payload with
  | DagPayload.Inline _ => OpResult.panicked "payload manager is only for decouple DAG payload"
  | DagPayload.Decoupled info =>
    OpResult.ok st (storeGet st info.id info.digest).toOption

/-- `TDagPayloadResolver::add_payload`: delegates to `insert_payload`. -/
def add_payload (st : ManagerState) (payload : DecoupledPayload) : OpResult Unit :=
  insert_payload st payload

/-- Modelled from the spec: manager teardown is not explicit under
`src/` — dropping the manager drops the waiters map and with it every
queued sender; per the one-shot contract each dropped sender surfaces
as an error (the spec's `ManagerShutdown` condition) to its receiver. -/
def teardown (st : ManagerState) : ManagerState :=
  { st with waiters := [],
            chans := dropSenders st.chans (allQueued st.waiters) }

end DagMgr

namespace DagMgr

/-- The channels right after `retrieve_payload` creates its fresh
one-shot channel for `st.nextWaiter`. -/
def regChan (st : ManagerState) : ChanSys :=
  { st.chans with states := fun x => if x = st.nextWaiter then some ChanState.pending else st.chans.states x }

/-- The waiters currently queued under one digest (empty when the map
has no entry for it). -/
def queuedItems (st : ManagerState) (d : PayloadDigest) : List WaiterId :=
  match wLookup st.waiters d with
  | some q => q.items
  | none => []

/-- Shared fixture: payload info with id 3 and digest 7. -/
def info7 : PayloadInfo := ⟨3, 7⟩

/-- Shared fixture: a certified node referencing digest 7, parents authored by 1 and 2. -/
def node7 : CertifiedNode := ⟨3, DagPayload.Decoupled info7, [1, 2]⟩

/-- Shared fixture: the supported payload for digest 7. -/
def payload7 : DecoupledPayload := ⟨info7, Payload.DirectMempool [10, 20]⟩

/-- Shared fixture: an unsupported-variant payload for digest 7. -/
def badPayload7 : DecoupledPayload := ⟨info7, Payload.InQuorumStore 0⟩

/-- Shared fixture: no channels created yet. -/
def chans0 : ChanSys := ⟨fun _ => none, []⟩

/-- Shared fixture: empty manager state, nothing stored, no injected failures. -/
def st0 : ManagerState :=
  { store := fun _ => none,
    storeGetFails := fun _ => false,
    storeInsertFails := fun _ => false,
    requestFails := fun _ => false,
    waiters := [],
    chans := chans0,
    nextWaiter := 0,
    fetchRequests := [],
    cancelRequests := [] }

/-- Shared fixture: manager state with one pending waiter (id 0) queued
under digest 7 and next fresh waiter id 1. -/
def stWaiter0 : ManagerState :=
  { st0 with
    waiters := [(7, ⟨1, [0]⟩)],
    chans := ⟨fun x => if x = 0 then some ChanState.pending else none, []⟩,
    nextWaiter := 1 }

/-- Shared fixture: the store already holds `payload7` under digest 7. -/
def stHit : ManagerState :=
  { st0 with store := fun d => if d = 7 then some payload7 else none }

/-- Shared fixture: the store holds an unsupported-variant payload under
digest 7. -/
def stHitBad : ManagerState :=
  { st0 with store := fun d => if d = 7 then some badPayload7 else none }

/-- Shared fixture: the store's `get` fails with a non-`Missing` error
for digest 7. -/
def stGetErr : ManagerState :=
  { st0 with storeGetFails := fun d => d == 7 }

/-- State after a first `retrieve_payload` for missing digest 7. -/
def c1_st1 : ManagerState := (retrieve_payload st0 node7).stateD st0

/-- State after a second, racing `retrieve_payload` for the same
still-missing digest 7. -/
def c1_st2 : ManagerState := (retrieve_payload c1_st1 node7).stateD c1_st1

/-- State after the first fetch response then completes with `payload7`. -/
def c1_st3 : ManagerState := (fetchCompletion c1_st2 7 payload7).stateD c1_st2

end DagMgr

namespace DagMgr

/-- `sendTo` records the send attempt at the end of the log. -/
@[simp] theorem sendTo_sendLog (ch : ChanSys) (w : WaiterId) (txns : List SignedTransaction) :
    (sendTo ch w txns).sendLog = ch.sendLog ++ [(w, txns)] := rfl

/-- `sendTo` leaves other channels untouched. -/
theorem sendTo_states_ne (ch : ChanSys) (w x : WaiterId) (txns : List SignedTransaction)
    (h : x ≠ w) : (sendTo ch w txns).states x = ch.states x := by
  simp [sendTo, h]

/-- `sendTo` resolves a pending channel. -/
theorem sendTo_states_pending (ch : ChanSys) (w : WaiterId) (txns : List SignedTransaction)
    (h : ch.states w = some ChanState.pending) :
    (sendTo ch w txns).states w = some (ChanState.sent txns) := by
  simp [sendTo, h]

/-- A resolved channel stays resolved under any further `sendTo`. -/
theorem sendTo_preserves_sent (ch : ChanSys) (w x : WaiterId)
    (txns t : List SignedTransaction) (h : ch.states x = some (ChanState.sent t)) :
    (sendTo ch w txns).states x = some (ChanState.sent t) := by
  by_cases hx : x = w
  · subst hx; simp [sendTo, h]
  · simpa [sendTo, hx] using h

/-- `dropSender` does not log anything. -/
@[simp] theorem dropSender_sendLog (ch : ChanSys) (w : WaiterId) :
    (dropSender ch w).sendLog = ch.sendLog := rfl

/-- `dropSender` leaves other channels untouched. -/
theorem dropSender_states_ne (ch : ChanSys) (w x : WaiterId) (h : x ≠ w) :
    (dropSender ch w).states x = ch.states x := by
  simp [dropSender, h]

/-- Dropping the sender of a pending channel marks it dropped. -/
theorem dropSender_states_pending (ch : ChanSys) (w : WaiterId)
    (h : ch.states w = some ChanState.pending) :
    (dropSender ch w).states w = some ChanState.senderDropped := by
  simp [dropSender, h]

/-- A resolved channel is unaffected by a sender drop. -/
theorem dropSender_preserves_sent (ch : ChanSys) (w x : WaiterId)
    (t : List SignedTransaction) (h : ch.states x = some (ChanState.sent t)) :
    (dropSender ch w).states x = some (ChanState.sent t) := by
  by_cases hx : x = w
  · subst hx; simp [dropSender, h]
  · simpa [dropSender, hx] using h

/-- A dropped channel stays dropped. -/
theorem dropSender_preserves_dropped (ch : ChanSys) (w x : WaiterId)
    (h : ch.states x = some ChanState.senderDropped) :
    (dropSender ch w).states x = some ChanState.senderDropped := by
  by_cases hx : x = w
  · subst hx; simp [dropSender, h]
  · simpa [dropSender, hx] using h

@[simp] theorem dropSenders_nil (ch : ChanSys) : dropSenders ch [] = ch := rfl

@[simp] theorem dropSenders_cons (ch : ChanSys) (w : WaiterId) (ws : List WaiterId) :
    dropSenders ch (w :: ws) = dropSenders (dropSender ch w) ws := rfl

/-- Dropping a batch of senders does not log anything. -/
theorem dropSenders_sendLog (ws : List WaiterId) (ch : ChanSys) :
    (dropSenders ch ws).sendLog = ch.sendLog := by
  induction ws generalizing ch with
  | nil => rfl
  | cons w rest ih => simpa [dropSenders] using ih (dropSender ch w)

/-- Channels outside the batch are untouched by `dropSenders`. -/
theorem dropSenders_states_not_mem (ws : List WaiterId) (ch : ChanSys) (x : WaiterId)
    (h : x ∉ ws) : (dropSenders ch ws).states x = ch.states x := by
  induction ws generalizing ch with
  | nil => rfl
  | cons w rest ih =>
    have hx : x ≠ w := fun hxw => h (hxw ▸ List.mem_cons_self w rest)
    have hrest : x ∉ rest := fun hr => h (List.mem_cons_of_mem w hr)
    rw [dropSenders_cons, ih (dropSender ch w) hrest, dropSender_states_ne ch w x hx]

/-- A resolved channel survives a batch of sender drops. -/
theorem dropSenders_preserves_sent (ws : List WaiterId) (ch : ChanSys) (x : WaiterId)
    (t : List SignedTransaction) (h : ch.states x = some (ChanState.sent t)) :
    (dropSenders ch ws).states x = some (ChanState.sent t) := by
  induction ws generalizing ch with
  | nil => exact h
  | cons w rest ih =>
    rw [dropSenders_cons]
    exact ih (dropSender ch w) (dropSender_preserves_sent ch w x t h)

/-- A dropped channel stays dropped through a batch of sender drops. -/
theorem dropSenders_preserves_dropped (ws : List WaiterId) (ch : ChanSys) (x : WaiterId)
    (h : ch.states x = some ChanState.senderDropped) :
    (dropSenders ch ws).states x = some ChanState.senderDropped := by
  induction ws generalizing ch with
  | nil => exact h
  | cons w rest ih =>
    rw [dropSenders_cons]
    exact ih (dropSender ch w) (dropSender_preserves_dropped ch w x h)

/-- Every pending channel in the batch ends up dropped. -/
theorem dropSenders_states_mem_pending (ws : List WaiterId) (ch : ChanSys) (x : WaiterId)
    (hmem : x ∈ ws) (h : ch.states x = some ChanState.pending) :
    (dropSenders ch ws).states x = some ChanState.senderDropped := by
  induction ws generalizing ch with
  | nil => cases hmem
  | cons w rest ih =>
    rw [dropSenders_cons]
    by_cases hx : x = w
    · subst hx
      exact dropSenders_preserves_dropped rest (dropSender ch x) x
        (dropSender_states_pending ch x h)
    · have hrest : x ∈ rest := by
        rcases List.mem_cons.mp hmem with h1 | h1
        · exact absurd h1 hx
        · exact h1
      exact ih (dropSender ch w) hrest (by rw [dropSender_states_ne ch w x hx]; exact h)

end DagMgr

namespace DagMgr

@[simp] theorem wLookup_nil (k : PayloadDigest) : wLookup [] k = none := rfl

/-- Looking up a removed digest finds nothing. -/
@[simp] theorem wLookup_wRemove_self (ws : WaitersMap) (k : PayloadDigest) :
    wLookup (wRemove ws k) k = none := by
  induction ws with
  | nil => rfl
  | cons p rest ih =>
    by_cases h : p.1 = k
    · simpa [wRemove, h] using ih
    · simpa [wRemove, wLookup, h] using ih

/-- Removing one digest leaves other digests' entries alone. -/
theorem wLookup_wRemove_ne (ws : WaitersMap) (k j : PayloadDigest) (h : j ≠ k) :
    wLookup (wRemove ws k) j = wLookup ws j := by
  induction ws with
  | nil => rfl
  | cons p rest ih =>
    obtain ⟨d, q⟩ := p
    by_cases hp : d = k
    · have hpj : ¬ d = j := fun he => h (he.symm.trans hp)
      rw [wRemove, if_pos hp, wLookup, if_neg hpj]
      exact ih
    · by_cases hpj : d = j
      · rw [wRemove, if_neg hp, wLookup, if_pos hpj, wLookup, if_pos hpj]
      · rw [wRemove, if_neg hp, wLookup, if_neg hpj, wLookup, if_neg hpj]
        exact ih

/-- Updating a digest's queue makes it the looked-up queue. -/
@[simp] theorem wLookup_wSet_self (ws : WaitersMap) (k : PayloadDigest) (q : BoundedVecDeque) :
    wLookup (wSet ws k q) k = some q := by
  simp [wSet, wLookup]

/-- Updating one digest leaves other digests' entries alone. -/
theorem wLookup_wSet_ne (ws : WaitersMap) (k j : PayloadDigest) (q : BoundedVecDeque)
    (h : j ≠ k) : wLookup (wSet ws k q) j = wLookup ws j := by
  have hk : k ≠ j := fun he => h he.symm
  simp only [wSet, wLookup, hk, if_false]
  exact wLookup_wRemove_ne ws k j h

/-- A waiter in some digest's queue is queued in the map. -/
theorem mem_allQueued (ws : WaitersMap) (d : PayloadDigest) (q : BoundedVecDeque)
    (w : WaiterId) (hq : wLookup ws d = some q) (hw : w ∈ q.items) :
    w ∈ allQueued ws := by
  induction ws with
  | nil => simp [wLookup] at hq
  | cons p rest ih =>
    rw [wLookup] at hq
    by_cases hp : p.1 = d
    · rw [if_pos hp] at hq
      have : p.2 = q := by injection hq
      subst this
      exact List.mem_flatten.mpr ⟨p.2.items, List.mem_map_of_mem (fun x => x.2.items) (List.mem_cons_self p rest), hw⟩
    · rw [if_neg hp] at hq
      have hrec := ih hq
      rcases List.mem_flatten.mp hrec with ⟨l, hl, hwl⟩
      rcases List.mem_map.mp hl with ⟨x, hx, hxl⟩
      exact List.mem_flatten.mpr ⟨l, List.mem_map.mpr ⟨x, List.mem_cons_of_mem p hx, hxl⟩, hwl⟩

@[simp] theorem notifySends_nil (ch : ChanSys) (txns : List SignedTransaction) :
    notifySends ch [] txns = ch := rfl

@[simp] theorem notifySends_cons (ch : ChanSys) (w : WaiterId) (rest : List WaiterId)
    (txns : List SignedTransaction) :
    notifySends ch (w :: rest) txns = notifySends (sendTo ch w txns) rest txns := rfl

/-- On a supported payload the notification loop never panics and is the
fold of `sendTo` over the queue. -/
theorem notifyLoop_direct (items : List WaiterId) (ch : ChanSys)
    (txns : List SignedTransaction) :
    notifyLoop ch items (Payload.DirectMempool txns) = some (notifySends ch items txns) := by
  induction items generalizing ch with
  | nil => rfl
  | cons w rest ih => simpa [notifyLoop] using ih (sendTo ch w txns)

/-- On an unsupported payload the notification loop hits `unreachable!`
as soon as there is one waiter to notify. -/
theorem notifyLoop_unsupported (ch : ChanSys) (w : WaiterId) (rest : List WaiterId)
    (payload : Payload) (h : payload.isDirectMempool = false) :
    notifyLoop ch (w :: rest) payload = none := by
  cases payload with
  | DirectMempool txns => simp [Payload.isDirectMempool] at h
  | InQuorumStore p => rfl

/-- The notification fold appends the sends in queue (arrival) order. -/
theorem notifySends_sendLog (items : List WaiterId) (ch : ChanSys)
    (txns : List SignedTransaction) :
    (notifySends ch items txns).sendLog
      = ch.sendLog ++ items.map (fun w => (w, txns)) := by
  induction items generalizing ch with
  | nil => simp
  | cons w rest ih =>
    rw [notifySends_cons, ih (sendTo ch w txns), sendTo_sendLog, List.append_assoc]
    rfl

/-- A resolved channel survives the rest of the notification fold. -/
theorem notifySends_preserves_sent (items : List WaiterId) (ch : ChanSys) (x : WaiterId)
    (txns t : List SignedTransaction) (h : ch.states x = some (ChanState.sent t)) :
    (notifySends ch items txns).states x = some (ChanState.sent t) := by
  induction items generalizing ch with
  | nil => exact h
  | cons w rest ih =>
    rw [notifySends_cons]
    exact ih (sendTo ch w txns) (sendTo_preserves_sent ch w x txns t h)

/-- Every pending waiter in the queue is resolved with the payload. -/
theorem notifySends_states_mem (items : List WaiterId) (ch : ChanSys) (x : WaiterId)
    (txns : List SignedTransaction) (hmem : x ∈ items)
    (h : ch.states x = some ChanState.pending) :
    (notifySends ch items txns).states x = some (ChanState.sent txns) := by
  induction items generalizing ch with
  | nil => cases hmem
  | cons w rest ih =>
    rw [notifySends_cons]
    by_cases hx : x = w
    · subst hx
      exact notifySends_preserves_sent rest (sendTo ch x txns) x txns txns
        (sendTo_states_pending ch x txns h)
    · have hrest : x ∈ rest := by
        rcases List.mem_cons.mp hmem with h1 | h1
        · exact absurd h1 hx
        · exact h1
      exact ih (sendTo ch w txns) hrest (by rw [sendTo_states_ne ch w x txns hx]; exact h)

end DagMgr

namespace DagMgr

/-- `retrieve_payload` on a store miss: registers the fresh waiter
(evicting and dropping the oldest sender if the queue is full), issues
one fetch request scoped to the node's parent authors, and returns the
fresh receiver. -/
theorem retrieve_miss (st : ManagerState) (node : CertifiedNode) (info : PayloadInfo)
    (hn : node.payload = DagPayload.Decoupled info)
    (hgf : st.storeGetFails info.digest = false)
    (hs : st.store info.digest = none)
    (hrf : st.requestFails info.digest = false) :
    retrieve_payload st node = OpResult.ok
      { st with
        nextWaiter := st.nextWaiter + 1,
        chans :=
          (match (((wLookup st.waiters info.digest).getD (BoundedVecDeque.new 1)).push_back st.nextWaiter).1 with
           | some evicted => dropSender (regChan st) evicted
           | none => regChan st),
        waiters := wSet st.waiters info.digest
          (((wLookup st.waiters info.digest).getD (BoundedVecDeque.new 1)).push_back st.nextWaiter).2,
        fetchRequests := st.fetchRequests ++ [(info, node.parentsAuthors)] }
      st.nextWaiter := by
  unfold retrieve_payload
  rw [hn]
  simp only [storeGet, hgf, hs, hrf, regChan]
  simp

/-- `retrieve_payload` on a store hit with no previously queued waiter:
the just-registered waiter is popped and resolved with the stored
transactions, the map entry is removed again, and no fetch is issued. -/
theorem retrieve_hit_empty (st : ManagerState) (node : CertifiedNode) (info : PayloadInfo)
    (p : DecoupledPayload) (txns : List SignedTransaction)
    (hn : node.payload = DagPayload.Decoupled info)
    (hgf : st.storeGetFails info.digest = false)
    (hsp : st.store info.digest = some p)
    (hp : p.payload = Payload.DirectMempool txns)
    (hw : wLookup st.waiters info.digest = none) :
    retrieve_payload st node = OpResult.ok
      { st with
        nextWaiter := st.nextWaiter + 1,
        chans := sendTo (regChan st) st.nextWaiter txns,
        waiters := wRemove (wSet st.waiters info.digest ⟨1, [st.nextWaiter]⟩) info.digest }
      st.nextWaiter := by
  unfold retrieve_payload
  rw [hn]
  simp only [storeGet, hgf, hsp, hw, regChan, BoundedVecDeque.new, BoundedVecDeque.push_back,
    BoundedVecDeque.pop_front, wLookup_wSet_self]
  simp [hp, dropSenders]

/-- `retrieve_payload` on a store hit whose stored payload is not the
supported representation aborts via `unreachable!`. -/
theorem retrieve_hit_unsupported (st : ManagerState) (node : CertifiedNode) (info : PayloadInfo)
    (p : DecoupledPayload)
    (hn : node.payload = DagPayload.Decoupled info)
    (hgf : st.storeGetFails info.digest = false)
    (hsp : st.store info.digest = some p)
    (hp : p.payload.isDirectMempool = false) :
    retrieve_payload st node = OpResult.panicked "other payloads are not supported" := by
  unfold retrieve_payload
  rw [hn]
  cases hpp : p.payload with
  | DirectMempool txns => rw [hpp] at hp; simp [Payload.isDirectMempool] at hp
  | InQuorumStore pr => simp only [storeGet, hgf, hsp]; simp [hpp]

/-- The fetch-completion future aborts on `expect("must exist")` when
the digest's waiter queue is no longer in the map. -/
theorem fetchCompletion_no_entry (st : ManagerState) (digest : PayloadDigest)
    (p : DecoupledPayload) (txns : List SignedTransaction)
    (hp : p.payload = Payload.DirectMempool txns)
    (hw : wLookup st.waiters digest = none) :
    fetchCompletion st digest p = OpResult.panicked "must exist" := by
  unfold fetchCompletion
  rw [hp, hw]

/-- The fetch-completion future aborts via `unreachable!` when the
fetched payload is not the supported representation. -/
theorem fetchCompletion_unsupported (st : ManagerState) (digest : PayloadDigest)
    (p : DecoupledPayload) (hp : p.payload.isDirectMempool = false) :
    fetchCompletion st digest p = OpResult.panicked "other payloads are not supported" := by
  unfold fetchCompletion
  cases hpp : p.payload with
  | DirectMempool txns => rw [hpp] at hp; simp [Payload.isDirectMempool] at hp
  | InQuorumStore pr => rfl

/-- `insert_payload` aborts via `unreachable!` when the inserted payload
is not the supported representation and at least one waiter is queued. -/
theorem insert_unsupported (st : ManagerState) (p : DecoupledPayload) (q : BoundedVecDeque)
    (hins : st.storeInsertFails p.info.digest = false)
    (hp : p.payload.isDirectMempool = false)
    (hq : wLookup st.waiters p.info.digest = some q)
    (hne : q.items ≠ []) :
    insert_payload st p = OpResult.panicked "other payloads are not supported" := by
  unfold insert_payload
  simp only [storeInsert, hins]
  cases hitems : q.items with
  | nil => exact absurd hitems hne
  | cons w rest =>
    by_cases hdup : (st.store p.info.digest).isSome = true
    · simp only [hdup, if_true, if_false, Bool.false_eq_true, hq, hitems,
        notifyLoop_unsupported _ _ _ _ hp]
    · simp only [hdup, if_false, Bool.false_eq_true, hq, hitems,
        notifyLoop_unsupported _ _ _ _ hp]

end DagMgr

namespace DagMgr

/-- C10: for every node carrying a decoupled payload reference,
`get_payload_if_exists` is a pure read — it returns `some` of the stored
payload exactly when the store lookup succeeds and `none` on any store
error (`Missing` or otherwise, indistinguishably), and it leaves the
manager's state (waiters map, channels, store, request logs) unchanged,
registering no waiter and issuing no fetch. -/
theorem claim10_get_if_exists_pure (st : ManagerState) (node : CertifiedNode)
    (info : PayloadInfo) (hn : node.payload = DagPayload.Decoupled info) :
    (get_payload_if_exists st node).isOk = true ∧
    (get_payload_if_exists st node).stateD st = st ∧
    (∀ p, storeGet st info.id info.digest = Except.ok p →
      (get_payload_if_exists st node).valD none = some p) ∧
    (∀ e, storeGet st info.id info.digest = Except.error e →
      (get_payload_if_exists st node).valD none = none) := by
  unfold get_payload_if_exists
  rw [hn]
  refine ⟨rfl, rfl, ?_, ?_⟩
  · intro p hp
    simp [OpResult.valD, hp, Except.toOption]
  · intro e he
    simp [OpResult.valD, he, Except.toOption]

/-- C10 witness: on a state holding `payload7` under digest 7, the peek
returns it; on the empty state it returns `none`; neither changes the state. -/
theorem claim10_witness :
    (get_payload_if_exists stHit node7).isOk = true ∧
    (get_payload_if_exists stHit node7).stateD stHit = stHit ∧
    (get_payload_if_exists stHit node7).valD none = some payload7 ∧
    (get_payload_if_exists st0 node7).valD none = none :=
  ⟨(claim10_get_if_exists_pure stHit node7 info7 rfl).1,
   (claim10_get_if_exists_pure stHit node7 info7 rfl).2.1,
   (claim10_get_if_exists_pure stHit node7 info7 rfl).2.2.1 payload7 rfl,
   (claim10_get_if_exists_pure st0 node7 info7 rfl).2.2.2 (DagPayloadStoreError.Missing 3) rfl⟩

/-- C6: if the payload is already stored (supported variant) and no
waiter is queued for its digest, `retrieve_payload` pops exactly the
waiter it just registered, resolves it with the stored transactions
(the send log grows by exactly that one send), leaves no map entry,
issues no fetch request, and returns an already-resolved receiver. -/
theorem claim6_hit_fast_path (st : ManagerState) (node : CertifiedNode) (info : PayloadInfo)
    (p : DecoupledPayload) (txns : List SignedTransaction)
    (hn : node.payload = DagPayload.Decoupled info)
    (hgf : st.storeGetFails info.digest = false)
    (hsp : st.store info.digest = some p)
    (hp : p.payload = Payload.DirectMempool txns)
    (hw : wLookup st.waiters info.digest = none) :
    (retrieve_payload st node).isOk = true ∧
    (retrieve_payload st node).valD 0 = st.nextWaiter ∧
    ((retrieve_payload st node).stateD st).fetchRequests = st.fetchRequests ∧
    wLookup ((retrieve_payload st node).stateD st).waiters info.digest = none ∧
    ((retrieve_payload st node).stateD st).chans.sendLog
      = st.chans.sendLog ++ [(st.nextWaiter, txns)] ∧
    ((retrieve_payload st node).stateD st).chans.recv st.nextWaiter
      = some (RecvResult.ok txns) := by
  rw [retrieve_hit_empty st node info p txns hn hgf hsp hp hw]
  have hpend : (regChan st).states st.nextWaiter = some ChanState.pending := by
    simp [regChan]
  have hsent := sendTo_states_pending (regChan st) st.nextWaiter txns hpend
  refine ⟨rfl, rfl, rfl, ?_, ?_, ?_⟩
  · exact wLookup_wRemove_self _ _
  · simp [OpResult.stateD, sendTo_sendLog, regChan]
  · simp [OpResult.stateD, ChanSys.recv, hsent]

/-- C6 witness: with `payload7` stored under digest 7 and no queued
waiters, retrieval resolves immediately with its transactions. -/
theorem claim6_witness :
    (retrieve_payload stHit node7).isOk = true ∧
    (retrieve_payload stHit node7).valD 0 = stHit.nextWaiter ∧
    ((retrieve_payload stHit node7).stateD stHit).fetchRequests = stHit.fetchRequests ∧
    wLookup ((retrieve_payload stHit node7).stateD stHit).waiters 7 = none ∧
    ((retrieve_payload stHit node7).stateD stHit).chans.sendLog
      = stHit.chans.sendLog ++ [(stHit.nextWaiter, [10, 20])] ∧
    ((retrieve_payload stHit node7).stateD stHit).chans.recv stHit.nextWaiter
      = some (RecvResult.ok [10, 20]) :=
  claim6_hit_fast_path stHit node7 info7 payload7 [10, 20] rfl rfl (by decide) rfl rfl

end DagMgr

namespace DagMgr

/-- When the store write is not failing, `storeInsert` succeeds and
changes nothing but (possibly) the store contents. -/
theorem storeInsert_ok (st : ManagerState) (p : DecoupledPayload)
    (hins : st.storeInsertFails p.info.digest = false) :
    ∃ st1, storeInsert st p = Except.ok st1 ∧ st1.waiters = st.waiters ∧
      st1.chans = st.chans ∧ st1.fetchRequests = st.fetchRequests ∧
      st1.cancelRequests = st.cancelRequests ∧ st1.nextWaiter = st.nextWaiter := by
  unfold storeInsert
  rw [hins]
  rw [if_neg (fun h => Bool.noConfusion h)]
  by_cases hdup : (st.store p.info.digest).isSome = true
  · exact ⟨st, by rw [if_pos hdup], rfl, rfl, rfl, rfl, rfl⟩
  · exact ⟨{ st with store := fun d => if d = p.info.digest then some p else st.store d },
      by rw [if_neg hdup], rfl, rfl, rfl, rfl, rfl⟩

/-- Core of `insert_payload` for a supported payload once the store
write has succeeded: the queue entry is removed and each queued waiter
is sent the transactions in order. -/
theorem insert_notify_core (st st1 : ManagerState) (p : DecoupledPayload)
    (txns : List SignedTransaction)
    (hp : p.payload = Payload.DirectMempool txns)
    (hres : storeInsert st p = Except.ok st1)
    (hw : st1.waiters = st.waiters) (hc : st1.chans = st.chans) :
    (insert_payload st p).isOk = true ∧
    wLookup ((insert_payload st p).stateD st).waiters p.info.digest = none ∧
    ((insert_payload st p).stateD st).chans.sendLog
      = st.chans.sendLog ++ (queuedItems st p.info.digest).map (fun w => (w, txns)) ∧
    (∀ w, w ∈ queuedItems st p.info.digest → st.chans.states w = some ChanState.pending →
      ((insert_payload st p).stateD st).chans.states w = some (ChanState.sent txns)) := by
  unfold insert_payload
  rw [hres]
  cases hq : wLookup st.waiters p.info.digest with
  | none =>
    simp only [hp, hw, hq]
    refine ⟨rfl, ?_, ?_, ?_⟩
    · simp [OpResult.stateD, hw, hq]
    · simp [OpResult.stateD, hc, queuedItems, hq]
    · intro w hwm
      simp [queuedItems, hq] at hwm
  | some q =>
    simp only [hp, hw, hq, notifyLoop_direct q.items _ txns]
    refine ⟨rfl, ?_, ?_, ?_⟩
    · simp [OpResult.stateD, hw, wLookup_wRemove_self]
    · simp [OpResult.stateD, hc, queuedItems, hq, notifySends_sendLog]
    · intro w hwm hpend
      simp only [queuedItems, hq] at hwm
      simpa [OpResult.stateD, hc] using
        notifySends_states_mem q.items st.chans w txns hwm hpend

/-- C2: inserting a payload of the supported `DirectMempool` variant
(with the store write succeeding) removes the digest's waiter queue
from the map (if present), resolves every waiter that was queued with
the payload's transaction list in arrival order, and returns `Ok`. -/
theorem claim2_insert_resolves_waiters_in_order (st : ManagerState) (p : DecoupledPayload)
    (txns : List SignedTransaction)
    (hins : st.storeInsertFails p.info.digest = false)
    (hp : p.payload = Payload.DirectMempool txns) :
    (insert_payload st p).isOk = true ∧
    wLookup ((insert_payload st p).stateD st).waiters p.info.digest = none ∧
    ((insert_payload st p).stateD st).chans.sendLog
      = st.chans.sendLog ++ (queuedItems st p.info.digest).map (fun w => (w, txns)) ∧
    (∀ w, w ∈ queuedItems st p.info.digest → st.chans.states w = some ChanState.pending →
      ((insert_payload st p).stateD st).chans.states w = some (ChanState.sent txns)) := by
  obtain ⟨st1, hres, hw, hc, -, -, -⟩ := storeInsert_ok st p hins
  exact insert_notify_core st st1 p txns hp hres hw hc

/-- C2 witness: inserting `payload7` while waiter 0 is queued under
digest 7 resolves that waiter with `[10, 20]` and empties the map. -/
theorem claim2_witness :
    (insert_payload stWaiter0 payload7).isOk = true ∧
    wLookup ((insert_payload stWaiter0 payload7).stateD stWaiter0).waiters 7 = none ∧
    ((insert_payload stWaiter0 payload7).stateD stWaiter0).chans.sendLog
      = stWaiter0.chans.sendLog ++ (queuedItems stWaiter0 7).map (fun w => (w, [10, 20])) ∧
    (∀ w, w ∈ queuedItems stWaiter0 7 → stWaiter0.chans.states w = some ChanState.pending →
      ((insert_payload stWaiter0 payload7).stateD stWaiter0).chans.states w
        = some (ChanState.sent [10, 20])) :=
  claim2_insert_resolves_waiters_in_order stWaiter0 payload7 [10, 20] rfl rfl

end DagMgr

namespace DagMgr

/-- C7: for every decoupled node, `prefetch_payload` returns without
failing, registers no waiter (waiters map, channels and waiter counter
unchanged): on a store hit it is a complete no-op; on a miss it issues
exactly one fetch request, discarding any issuance error (also a no-op
then); on any other store error it is a no-op as well. -/
theorem claim7_prefetch_silent (st : ManagerState) (node : CertifiedNode)
    (info : PayloadInfo) (hn : node.payload = DagPayload.Decoupled info) :
    (prefetch_payload st node).isOk = true ∧
    ((prefetch_payload st node).stateD st).waiters = st.waiters ∧
    ((prefetch_payload st node).stateD st).chans = st.chans ∧
    ((prefetch_payload st node).stateD st).nextWaiter = st.nextWaiter ∧
    (∀ p, st.storeGetFails info.digest = false → st.store info.digest = some p →
      (prefetch_payload st node).stateD st = st) ∧
    (st.storeGetFails info.digest = false → st.store info.digest = none →
      st.requestFails info.digest = false →
      ((prefetch_payload st node).stateD st).fetchRequests
        = st.fetchRequests ++ [(info, node.parentsAuthors)]) ∧
    (st.storeGetFails info.digest = false → st.store info.digest = none →
      st.requestFails info.digest = true → (prefetch_payload st node).stateD st = st) ∧
    (st.storeGetFails info.digest = true → (prefetch_payload st node).stateD st = st) := by
  by_cases hgf : st.storeGetFails info.digest = true
  · have hred : prefetch_payload st node = OpResult.ok st () := by
      unfold prefetch_payload
      rw [hn]
      simp [storeGet, hgf]
    rw [hred]
    exact ⟨rfl, rfl, rfl, rfl, fun _ _ _ => rfl,
      fun hf _ _ => (by simp [hf] at hgf), fun _ _ _ => rfl, fun _ => rfl⟩
  · have hgf' : st.storeGetFails info.digest = false := by
      revert hgf
      cases st.storeGetFails info.digest <;> simp
    cases hso : st.store info.digest with
    | some p =>
      have hred : prefetch_payload st node = OpResult.ok st () := by
        unfold prefetch_payload
        rw [hn]
        simp [storeGet, hgf', hso]
      rw [hred]
      exact ⟨rfl, rfl, rfl, rfl, fun _ _ _ => rfl,
        fun _ hs _ => (by cases hs), fun _ _ _ => rfl, fun _ => rfl⟩
    | none =>
      by_cases hrf : st.requestFails info.digest = true
      · have hred : prefetch_payload st node = OpResult.ok st () := by
          unfold prefetch_payload
          rw [hn]
          simp [storeGet, hgf', hso, hrf]
        rw [hred]
        exact ⟨rfl, rfl, rfl, rfl, fun _ _ _ => rfl,
          fun _ _ hr => (by rw [hrf] at hr; cases hr), fun _ _ _ => rfl, fun _ => rfl⟩
      · have hrf' : st.requestFails info.digest = false := by
          revert hrf
          cases st.requestFails info.digest <;> simp
        have hred : prefetch_payload st node = OpResult.ok
            { st with fetchRequests := st.fetchRequests ++ [(info, node.parentsAuthors)] } () := by
          unfold prefetch_payload
          rw [hn]
          simp [storeGet, hgf', hso, hrf']
        rw [hred]
        exact ⟨rfl, rfl, rfl, rfl, fun _ _ hs => (by cases hs),
          fun _ _ _ => rfl, fun _ _ hr => (by rw [hr] at hrf'; cases hrf'),
          fun hf => absurd hf hgf⟩

/-- C7 witness: prefetch on an already-stored digest is a no-op; on a
missing digest it issues exactly the one fetch request. -/
theorem claim7_witness :
    (prefetch_payload stHit node7).isOk = true ∧
    (prefetch_payload stHit node7).stateD stHit = stHit ∧
    ((prefetch_payload st0 node7).stateD st0).fetchRequests
      = st0.fetchRequests ++ [(info7, node7.parentsAuthors)] ∧
    ((prefetch_payload st0 node7).stateD st0).waiters = st0.waiters :=
  ⟨(claim7_prefetch_silent stHit node7 info7 rfl).1,
   (claim7_prefetch_silent stHit node7 info7 rfl).2.2.2.2.1 payload7 rfl rfl,
   (claim7_prefetch_silent st0 node7 info7 rfl).2.2.2.2.2.1 rfl rfl rfl,
   (claim7_prefetch_silent st0 node7 info7 rfl).2.1⟩

end DagMgr

namespace DagMgr

/-- The fresh one-shot channel created by `retrieve_payload` is pending. -/
theorem regChan_self (st : ManagerState) :
    (regChan st).states st.nextWaiter = some ChanState.pending := by
  simp [regChan]

/-- `regChan` leaves other channels untouched. -/
theorem regChan_ne (st : ManagerState) (x : WaiterId) (h : x ≠ st.nextWaiter) :
    (regChan st).states x = st.chans.states x := by
  simp [regChan, h]

/-- C9: the waiter queue `retrieve_payload` creates is
`BoundedVecDeque::new(1)` — capacity exactly 1 — so at most one waiter
is held per digest: registering on a missing digest with no existing
entry leaves the queue `[fresh]` with capacity 1, and registering while
a waiter `w1` is still queued cannot retain both — the queue becomes
`[fresh]` with `w1` evicted and its sender dropped. -/
theorem claim9_capacity_one_queue :
    (∀ (st : ManagerState) (node : CertifiedNode) (info : PayloadInfo),
      node.payload = DagPayload.Decoupled info →
      wLookup st.waiters info.digest = none →
      st.storeGetFails info.digest = false →
      st.store info.digest = none →
      st.requestFails info.digest = false →
      wLookup ((retrieve_payload st node).stateD st).waiters info.digest
        = some ⟨1, [st.nextWaiter]⟩) ∧
    (∀ (st : ManagerState) (node : CertifiedNode) (info : PayloadInfo) (w1 : WaiterId),
      node.payload = DagPayload.Decoupled info →
      wLookup st.waiters info.digest = some ⟨1, [w1]⟩ →
      st.storeGetFails info.digest = false →
      st.store info.digest = none →
      st.requestFails info.digest = false →
      w1 ≠ st.nextWaiter →
      st.chans.states w1 = some ChanState.pending →
      wLookup ((retrieve_payload st node).stateD st).waiters info.digest
        = some ⟨1, [st.nextWaiter]⟩ ∧
      w1 ∉ (⟨1, [st.nextWaiter]⟩ : BoundedVecDeque).items ∧
      ((retrieve_payload st node).stateD st).chans.states w1
        = some ChanState.senderDropped) := by
  constructor
  · intro st node info hn hw hgf hs hrf
    rw [retrieve_miss st node info hn hgf hs hrf]
    rw [hw]
    simp [OpResult.stateD, BoundedVecDeque.new, BoundedVecDeque.push_back]
  · intro st node info w1 hn hq hgf hs hrf hne hpend
    rw [retrieve_miss st node info hn hgf hs hrf]
    rw [hq]
    have hpush : ((⟨1, [w1]⟩ : BoundedVecDeque).push_back st.nextWaiter)
        = (some w1, ⟨1, [st.nextWaiter]⟩) := by
      simp [BoundedVecDeque.push_back]
    refine ⟨?_, ?_, ?_⟩
    · simp [OpResult.stateD, hpush]
    · simp [List.mem_singleton, hne]
    · simp only [OpResult.stateD, Option.getD_some, hpush]
      exact dropSender_states_pending (regChan st) w1
        (by rw [regChan_ne st w1 hne]; exact hpend)

/-- C9 witness: with waiter 0 queued under digest 7 and the digest
missing, a second retrieval leaves the queue holding only waiter 1,
with waiter 0 evicted and its sender dropped. -/
theorem claim9_witness :
    wLookup ((retrieve_payload st0 node7).stateD st0).waiters 7 = some ⟨1, [0]⟩ ∧
    wLookup ((retrieve_payload stWaiter0 node7).stateD stWaiter0).waiters 7 = some ⟨1, [1]⟩ ∧
    (0 : WaiterId) ∉ (⟨1, [(1 : WaiterId)]⟩ : BoundedVecDeque).items ∧
    ((retrieve_payload stWaiter0 node7).stateD stWaiter0).chans.states 0
      = some ChanState.senderDropped :=
  ⟨claim9_capacity_one_queue.1 st0 node7 info7 rfl rfl rfl rfl rfl,
   (claim9_capacity_one_queue.2 stWaiter0 node7 info7 0 rfl rfl rfl rfl rfl
      (by decide) rfl).1,
   (claim9_capacity_one_queue.2 stWaiter0 node7 info7 0 rfl rfl rfl rfl rfl
      (by decide) rfl).2.1,
   (claim9_capacity_one_queue.2 stWaiter0 node7 info7 0 rfl rfl rfl rfl rfl
      (by decide) rfl).2.2⟩

end DagMgr

namespace DagMgr

/-- C8: every waiter still pending in some digest's queue when the
manager is torn down observes a resolved receive — the shutdown error,
not a hang: its sender is dropped, so `recv` returns the error
immediately rather than `none` (still suspended). -/
theorem claim8_teardown_resolves_waiters (st : ManagerState) (d : PayloadDigest)
    (q : BoundedVecDeque) (w : WaiterId)
    (hq : wLookup st.waiters d = some q)
    (hw : w ∈ q.items)
    (hpend : st.chans.states w = some ChanState.pending) :
    (teardown st).chans.recv w = some RecvResult.recvError ∧
    (teardown st).waiters = [] := by
  have hmem : w ∈ allQueued st.waiters := mem_allQueued st.waiters d q w hq hw
  have hdrop : (dropSenders st.chans (allQueued st.waiters)).states w
      = some ChanState.senderDropped :=
    dropSenders_states_mem_pending (allQueued st.waiters) st.chans w hmem hpend
  exact ⟨by simp [teardown, ChanSys.recv, hdrop], rfl⟩

/-- C8 witness: tearing down a manager with waiter 0 pending under
digest 7 resolves that waiter with the shutdown error. -/
theorem claim8_witness :
    (teardown stWaiter0).chans.recv 0 = some RecvResult.recvError ∧
    (teardown stWaiter0).waiters = [] :=
  claim8_teardown_resolves_waiters stWaiter0 7 ⟨1, [0]⟩ 0 rfl (by decide) rfl

/-- C3 (code bug): after `insert_payload` has resolved waiter 0 and
removed digest 7's queue entry, a late fetch completion for the same
digest does not find "no waiters and discard its result" — it panics on
`expect("must exist")`, aborting the process. -/
theorem claim3_late_fetch_completion_panics :
    (insert_payload stWaiter0 payload7).isOk = true ∧
    ((insert_payload stWaiter0 payload7).stateD stWaiter0).chans.recv 0
      = some (RecvResult.ok [10, 20]) ∧
    (fetchCompletion ((insert_payload stWaiter0 payload7).stateD stWaiter0) 7
        payload7).panicMsg = some "must exist" := by
  decide

/-- C5 (code bug): when the store query fails with an error other than
`Missing`, `retrieve_payload` bails with the fetch error but the waiter
it had just registered is NOT removed — it is left pending in the map,
a leaked, never-resolved entry. -/
theorem claim5_store_error_leaks_waiter :
    (retrieve_payload stGetErr node7).errMsg = some "error fetching" ∧
    wLookup ((retrieve_payload stGetErr node7).stateD stGetErr).waiters 7
      = some ⟨1, [0]⟩ ∧
    ((retrieve_payload stGetErr node7).stateD stGetErr).chans.states 0
      = some ChanState.pending := by
  decide

end DagMgr

namespace DagMgr

/-- C1 counterexample: two `retrieve_payload` calls racing on the same
missing digest issue TWO fetch requests (the claim allows at most one),
and after the fetch completes the two callers do NOT resolve to the
same transaction list: the first caller's deferred value fails with a
receive error (its sender was evicted and dropped) while the second
resolves to the fetched transactions. -/
theorem claim1_counterexample :
    c1_st2.fetchRequests.length = 2 ∧
    c1_st3.chans.recv 0 = some RecvResult.recvError ∧
    c1_st3.chans.recv 1 = some (RecvResult.ok [10, 20]) := by
  decide

/-- C1 amended: each `retrieve_payload` call on the same missing digest
issues its own fetch request (two calls issue two), and the capacity-1
queue retains only the most recent caller: the earlier caller's sender
is dropped at registration time, and once the fetch completes the
retained caller's deferred value resolves to the fetched transaction
list while the evicted caller's resolves to a receive error. -/
theorem claim1_per_caller_fetch_and_eviction
    (st : ManagerState) (node : CertifiedNode) (info : PayloadInfo)
    (fetched : DecoupledPayload) (txns : List SignedTransaction)
    (st1 st2 : ManagerState)
    (hn : node.payload = DagPayload.Decoupled info)
    (hw : wLookup st.waiters info.digest = none)
    (hgf : st.storeGetFails info.digest = false)
    (hs : st.store info.digest = none)
    (hrf : st.requestFails info.digest = false)
    (hf : fetched.payload = Payload.DirectMempool txns)
    (h1 : st1 = (retrieve_payload st node).stateD st)
    (h2 : st2 = (retrieve_payload st1 node).stateD st1) :
    (retrieve_payload st node).isOk = true ∧
    (retrieve_payload st1 node).isOk = true ∧
    st2.fetchRequests
      = st.fetchRequests ++ [(info, node.parentsAuthors), (info, node.parentsAuthors)] ∧
    st2.chans.states st.nextWaiter = some ChanState.senderDropped ∧
    ((fetchCompletion st2 info.digest fetched).stateD st2).chans.recv (st.nextWaiter + 1)
      = some (RecvResult.ok txns) ∧
    ((fetchCompletion st2 info.digest fetched).stateD st2).chans.recv st.nextWaiter
      = some RecvResult.recvError := by
  have e1 := retrieve_miss st node info hn hgf hs hrf
  have hpush1 : ((wLookup st.waiters info.digest).getD (BoundedVecDeque.new 1)).push_back
      st.nextWaiter = (none, ⟨1, [st.nextWaiter]⟩) := by
    rw [hw]
    simp [BoundedVecDeque.new, BoundedVecDeque.push_back]
  have hst1 : st1 = { st with
      nextWaiter := st.nextWaiter + 1,
      chans := regChan st,
      waiters := wSet st.waiters info.digest ⟨1, [st.nextWaiter]⟩,
      fetchRequests := st.fetchRequests ++ [(info, node.parentsAuthors)] } := by
    rw [h1, e1]
    simp [OpResult.stateD, hpush1]
  have hn1 : st1.nextWaiter = st.nextWaiter + 1 := by rw [hst1]
  have hc1 : st1.chans = regChan st := by rw [hst1]
  have hwt1 : st1.waiters = wSet st.waiters info.digest ⟨1, [st.nextWaiter]⟩ := by rw [hst1]
  have hfr1 : st1.fetchRequests = st.fetchRequests ++ [(info, node.parentsAuthors)] := by
    rw [hst1]
  have hgf1 : st1.storeGetFails info.digest = false := by rw [hst1]; exact hgf
  have hs1 : st1.store info.digest = none := by rw [hst1]; exact hs
  have hrf1 : st1.requestFails info.digest = false := by rw [hst1]; exact hrf
  have e2 := retrieve_miss st1 node info hn hgf1 hs1 hrf1
  have hlk1 : wLookup st1.waiters info.digest = some ⟨1, [st.nextWaiter]⟩ := by
    rw [hwt1]
    exact wLookup_wSet_self st.waiters info.digest ⟨1, [st.nextWaiter]⟩
  have hpush2 : ((wLookup st1.waiters info.digest).getD (BoundedVecDeque.new 1)).push_back
      st1.nextWaiter = (some st.nextWaiter, ⟨1, [st.nextWaiter + 1]⟩) := by
    rw [hlk1, hn1]
    simp [BoundedVecDeque.push_back]
  have hst2 : st2 = { st1 with
      nextWaiter := st1.nextWaiter + 1,
      chans := dropSender (regChan st1) st.nextWaiter,
      waiters := wSet st1.waiters info.digest ⟨1, [st.nextWaiter + 1]⟩,
      fetchRequests := st1.fetchRequests ++ [(info, node.parentsAuthors)] } := by
    rw [h2, e2]
    simp [OpResult.stateD, hpush2]
  have hc2 : st2.chans = dropSender (regChan st1) st.nextWaiter := by rw [hst2]
  have hwt2 : st2.waiters = wSet st1.waiters info.digest ⟨1, [st.nextWaiter + 1]⟩ := by
    rw [hst2]
  have hfr2 : st2.fetchRequests = st1.fetchRequests ++ [(info, node.parentsAuthors)] := by
    rw [hst2]
  have hne : st.nextWaiter ≠ st.nextWaiter + 1 := Nat.ne_of_lt (Nat.lt_succ_self _)
  have hpendA : (regChan st1).states st.nextWaiter = some ChanState.pending := by
    rw [regChan_ne st1 st.nextWaiter (by rw [hn1]; exact hne), hc1]
    exact regChan_self st
  have hdropA : st2.chans.states st.nextWaiter = some ChanState.senderDropped := by
    rw [hc2]
    exact dropSender_states_pending (regChan st1) st.nextWaiter hpendA
  have hpendB : st2.chans.states (st.nextWaiter + 1) = some ChanState.pending := by
    have hb := regChan_self st1
    rw [hn1] at hb
    rw [hc2, dropSender_states_ne (regChan st1) st.nextWaiter (st.nextWaiter + 1)
      (Nat.succ_ne_self st.nextWaiter)]
    exact hb
  have hlk2 : wLookup st2.waiters info.digest = some ⟨1, [st.nextWaiter + 1]⟩ := by
    rw [hwt2]
    exact wLookup_wSet_self st1.waiters info.digest ⟨1, [st.nextWaiter + 1]⟩
  have efc : fetchCompletion st2 info.digest fetched = OpResult.ok
      { st2 with
        waiters := wRemove st2.waiters info.digest,
        chans := sendTo st2.chans (st.nextWaiter + 1) txns } () := by
    unfold fetchCompletion
    rw [hf, hlk2]
    simp [BoundedVecDeque.pop_front]
  have hsentB := sendTo_states_pending st2.chans (st.nextWaiter + 1) txns hpendB
  refine ⟨?_, ?_, ?_, hdropA, ?_, ?_⟩
  · rw [e1]; rfl
  · rw [e2]; rfl
  · rw [hfr2, hfr1]
    simp
  · rw [efc]
    simp [OpResult.stateD, ChanSys.recv, hsentB]
  · rw [efc]
    have hkeep : (sendTo st2.chans (st.nextWaiter + 1) txns).states st.nextWaiter
        = st2.chans.states st.nextWaiter :=
      sendTo_states_ne st2.chans (st.nextWaiter + 1) st.nextWaiter txns hne
    simp [OpResult.stateD, ChanSys.recv, hkeep, hdropA]

/-- C1 amended witness: the concrete two-caller race on digest 7 from
the empty state. -/
theorem claim1_witness :
    (retrieve_payload st0 node7).isOk = true ∧
    (retrieve_payload c1_st1 node7).isOk = true ∧
    c1_st2.fetchRequests
      = st0.fetchRequests ++ [(info7, node7.parentsAuthors), (info7, node7.parentsAuthors)] ∧
    c1_st2.chans.states 0 = some ChanState.senderDropped ∧
    ((fetchCompletion c1_st2 7 payload7).stateD c1_st2).chans.recv 1
      = some (RecvResult.ok [10, 20]) ∧
    ((fetchCompletion c1_st2 7 payload7).stateD c1_st2).chans.recv 0
      = some RecvResult.recvError :=
  claim1_per_caller_fetch_and_eviction st0 node7 info7 payload7 [10, 20]
    c1_st1 c1_st2 rfl rfl rfl rfl rfl rfl rfl rfl

end DagMgr

namespace DagMgr

/-- C4 counterexample: inserting an unsupported-variant payload while a
waiter is queued does not deliver a typed recoverable error to the
waiter — the process aborts on `unreachable!`. -/
theorem claim4_counterexample :
    (insert_payload stWaiter0 badPayload7).panicMsg
      = some "other payloads are not supported" ∧
    (insert_payload stWaiter0 badPayload7).isOk = false ∧
    (insert_payload stWaiter0 badPayload7).errMsg = none := by
  decide

/-- C4 amended: for every payload whose variant is not the supported
`DirectMempool` representation, resolution aborts the process via
`unreachable!` instead of failing with a typed error: `insert_payload`
panics whenever at least one waiter is queued for the digest,
`retrieve_payload` panics on a store hit of such a payload, and the
fetch-completion path panics on such a fetched payload. -/
theorem claim4_unsupported_variant_panics :
    (∀ (st : ManagerState) (p : DecoupledPayload) (q : BoundedVecDeque),
      st.storeInsertFails p.info.digest = false →
      p.payload.isDirectMempool = false →
      wLookup st.waiters p.info.digest = some q →
      q.items ≠ [] →
      insert_payload st p = OpResult.panicked "other payloads are not supported") ∧
    (∀ (st : ManagerState) (node : CertifiedNode) (info : PayloadInfo) (p : DecoupledPayload),
      node.payload = DagPayload.Decoupled info →
      st.storeGetFails info.digest = false →
      st.store info.digest = some p →
      p.payload.isDirectMempool = false →
      retrieve_payload st node = OpResult.panicked "other payloads are not supported") ∧
    (∀ (st : ManagerState) (d : PayloadDigest) (p : DecoupledPayload),
      p.payload.isDirectMempool = false →
      fetchCompletion st d p = OpResult.panicked "other payloads are not supported") :=
  ⟨fun st p q hins hp hq hne => insert_unsupported st p q hins hp hq hne,
   fun st node info p hn hgf hsp hp => retrieve_hit_unsupported st node info p hn hgf hsp hp,
   fun st d p hp => fetchCompletion_unsupported st d p hp⟩

/-- C4 witness: the three panic paths at concrete inputs — insertion
with a queued waiter, retrieval hitting a stored unsupported payload,
and fetch completion with an unsupported payload. -/
theorem claim4_witness :
    insert_payload stWaiter0 badPayload7
      = OpResult.panicked "other payloads are not supported" ∧
    retrieve_payload stHitBad node7
      = OpResult.panicked "other payloads are not supported" ∧
    fetchCompletion st0 7 badPayload7
      = OpResult.panicked "other payloads are not supported" :=
  ⟨claim4_unsupported_variant_panics.1 stWaiter0 badPayload7 ⟨1, [0]⟩ rfl rfl rfl
      (by decide),
   claim4_unsupported_variant_panics.2.1 stHitBad node7 info7 badPayload7 rfl rfl rfl rfl,
   claim4_unsupported_variant_panics.2.2 st0 7 badPayload7 rfl⟩

end DagMgr
